import Mathlib

/-!
Verification development for the change-listener core of a virtual-desktop
accessor library (source: src/changelistener.rs).  The OS notification sink
(VirtualDesktopChangeListener) translates COM callbacks into typed events and
forwards them over a non-blocking multi-producer/multi-consumer channel; the
registration handle (RegisteredListener) owns the registration lifecycle.

Shallow embedding conventions:
- DesktopID (a GUID, opaque and equality-comparable) is modelled as Nat.
- HWND (a window handle, zero-initialisable) is modelled as Nat, 0 = null.
- External collaborators (get_desktops, get_index_by_desktop, the accessors
  get_id and get_thumbnail_window on COM objects) are oracle parameters: a
  callback receives the values those collaborators would produce.  An
  out-parameter accessor that may or may not write is an Option; when it does
  not write, the Rust default initialisation (zero) is used, as in the source.
- The crossbeam channel is explicit state: capacity, queue, and whether the
  receive end is still connected.  try_send mirrors crossbeam semantics:
  error on disconnected, error on full when bounded, append otherwise.
- Each callback returns the updated channel, the list of events it passed to
  try_send (its attempts, in order), and the HRESULT it reports to the OS.
-/

namespace ChangeListener

abbrev DesktopID := Nat

abbrev HWND := Nat

/-- Modelled from the spec: hresult.rs is not under src/.  An HRESULT is an OS
status code; per COM convention a negative signed value is a failure status and
zero is success. -/
structure HRESULT where
  code : Int
deriving DecidableEq

def HRESULT.ok : HRESULT := ⟨0⟩

def HRESULT.failed (h : HRESULT) : Bool := decide (h.code < 0)

/-- Event type from src/changelistener.rs lines 17-22. -/
inductive VirtualDesktopEvent
  | DesktopCreated (index : Nat)
  | DesktopDestroyed (index : Nat)
  | DesktopChanged (old_index new_index : Nat)
  | WindowChanged (hwnd : HWND)
deriving DecidableEq

inductive TrySendError
  | full
  | disconnected
deriving DecidableEq

/-- State of the crossbeam channel the Sink sends into: optional capacity
(none = unbounded), current queue contents in FIFO order, and whether the
receive end is still alive. -/
structure Channel where
  cap : Option Nat
  queue : List VirtualDesktopEvent
  connected : Bool
deriving DecidableEq

/-- Modelled from the spec: crossbeam try_send (dependency code, not under
src/) is strictly non-blocking: it fails with disconnected when no receiver
remains, fails with full when a bounded buffer is exhausted, and otherwise
appends the message, never waiting. -/
def Channel.try_send (ch : Channel) (e : VirtualDesktopEvent) :
    Channel × Except TrySendError Unit :=
  if ch.connected then
    match ch.cap with
    | none => ({ ch with queue := ch.queue ++ [e] }, Except.ok ())
    | some k =>
        if ch.queue.length < k then
          ({ ch with queue := ch.queue ++ [e] }, Except.ok ())
        else
          (ch, Except.error TrySendError.full)
  else
    (ch, Except.error TrySendError.disconnected)

/-- Result of one Sink callback: the channel after the callback ran, the
events the callback handed to try_send in order, and the status returned
to the OS. -/
structure CallbackResult where
  chan : Channel
  attempts : List VirtualDesktopEvent
  hr : HRESULT
deriving DecidableEq

/-- Callback virtual_desktop_created (src lines 127-136): read the id the
desktop reports (default-initialised if get_id does not write), resolve via
get_index_by_desktop; on success try_send DesktopCreated(index), discarding
the send result; on lookup failure do nothing; return ok either way. -/
def virtual_desktop_created (get_index_by_desktop : DesktopID → Except HRESULT Nat)
    (desktop_id : Option DesktopID) (ch : Channel) : CallbackResult :=
  match get_index_by_desktop (desktop_id.getD 0) with
  | Except.ok index =>
      CallbackResult.mk (ch.try_send (VirtualDesktopEvent.DesktopCreated index)).1
        [VirtualDesktopEvent.DesktopCreated index] HRESULT.ok
  | Except.error _ => CallbackResult.mk ch [] HRESULT.ok

/-- Callback virtual_desktop_destroy_begin (src lines 139-145): ignores both
desktop arguments and returns ok. -/
def virtual_desktop_destroy_begin (_destroyed_desktop _fallback_desktop : Option DesktopID)
    (ch : Channel) : CallbackResult :=
  CallbackResult.mk ch [] HRESULT.ok

/-- Callback virtual_desktop_destroy_failed (src lines 148-154): ignores both
desktop arguments and returns ok. -/
def virtual_desktop_destroy_failed (_destroyed_desktop _fallback_desktop : Option DesktopID)
    (ch : Channel) : CallbackResult :=
  CallbackResult.mk ch [] HRESULT.ok

/-- Callback virtual_desktop_destroyed (src lines 157-172): same pattern as
created, emitting DesktopDestroyed; the fallback desktop is unused. -/
def virtual_desktop_destroyed (get_index_by_desktop : DesktopID → Except HRESULT Nat)
    (destroyed_id : Option DesktopID) (_fallback_desktop : Option DesktopID)
    (ch : Channel) : CallbackResult :=
  match get_index_by_desktop (destroyed_id.getD 0) with
  | Except.ok index =>
      CallbackResult.mk (ch.try_send (VirtualDesktopEvent.DesktopDestroyed index)).1
        [VirtualDesktopEvent.DesktopDestroyed index] HRESULT.ok
  | Except.error _ => CallbackResult.mk ch [] HRESULT.ok

/-- Callback view_virtual_desktop_changed (src lines 175-191): hwnd is
zero-initialised, get_thumbnail_window may write it (its status is not
checked), then WindowChanged(hwnd) is unconditionally handed to try_send. -/
def view_virtual_desktop_changed (thumbnail_window : Option HWND)
    (ch : Channel) : CallbackResult :=
  CallbackResult.mk
    (ch.try_send (VirtualDesktopEvent.WindowChanged (thumbnail_window.getD 0))).1
    [VirtualDesktopEvent.WindowChanged (thumbnail_window.getD 0)] HRESULT.ok

/-- usize::MAX on a 64-bit target, the sentinel the desktop-changed loop uses
for an unresolved index. -/
def USIZE_MAX : Nat := 2 ^ 64 - 1

/-- Loop of current_virtual_desktop_changed (src lines 211-217): iterate over
the enumerated desktops with index i; a desktop equal to old_id sets old to i;
otherwise (else-if) a desktop equal to new_id sets new to i.  Arguments o and
n are the mutable old and new accumulators. -/
def cdcLoop (old_id new_id : DesktopID) : List DesktopID → Nat → Nat → Nat → Nat × Nat
  | [], _, o, n => (o, n)
  | d :: rest, i, o, n =>
      if d = old_id then cdcLoop old_id new_id rest (i + 1) i n
      else if d = new_id then cdcLoop old_id new_id rest (i + 1) o i
      else cdcLoop old_id new_id rest (i + 1) o n

/-- Callback current_virtual_desktop_changed (src lines 194-225): read both
ids, enumerate desktops via get_desktops; run the resolution loop starting
from (usize::MAX, usize::MAX); try_send DesktopChanged(old, new) only when
both accumulators moved off the sentinel; return ok on every path. -/
def current_virtual_desktop_changed :
    Except HRESULT (List DesktopID) → Option DesktopID → Option DesktopID →
      Channel → CallbackResult
  | Except.ok desktops, og, ng, ch =>
      let r := cdcLoop (og.getD 0) (ng.getD 0) desktops 0 USIZE_MAX USIZE_MAX
      if r.1 ≠ USIZE_MAX ∧ r.2 ≠ USIZE_MAX then
        CallbackResult.mk
          (ch.try_send (VirtualDesktopEvent.DesktopChanged r.1 r.2)).1
          [VirtualDesktopEvent.DesktopChanged r.1 r.2] HRESULT.ok
      else
        CallbackResult.mk ch [] HRESULT.ok
  | Except.error _, _, _, ch => CallbackResult.mk ch [] HRESULT.ok

/-- Send end of the crossbeam channel, a handle identifying the underlying
shared channel. -/
structure Sender where
  chanId : Nat
deriving DecidableEq

/-- Receive end of the crossbeam channel, a handle identifying the underlying
shared channel. -/
structure Receiver where
  chanId : Nat
deriving DecidableEq

/-- Modelled from the spec: crossbeam Receiver clone (dependency code, not
under src/) produces a new handle onto the same underlying channel, so every
clone draws from the one event stream. -/
def Receiver.clone (r : Receiver) : Receiver := Receiver.mk r.chanId

/-- Reference-count operations performed on the Sink object. -/
inductive SinkOp
  | addRef
  | release
deriving DecidableEq

/-- The Sink (src lines 93-96): holds the send end of the event channel and
the OS-visible reference count maintained by the generated co_class code. -/
structure VirtualDesktopChangeListener where
  sender : Sender
  refcnt : Nat
deriving DecidableEq

/-- Modelled from the spec: the generated allocate of the com dependency (not
under src/) builds the object with its reference count at zero; the creator's
add_ref immediately after allocation is what establishes the registration's
hold of one. -/
def VirtualDesktopChangeListener.allocate (s : Sender) : VirtualDesktopChangeListener :=
  VirtualDesktopChangeListener.mk s 0

def VirtualDesktopChangeListener.add_ref (v : VirtualDesktopChangeListener) :
    VirtualDesktopChangeListener :=
  VirtualDesktopChangeListener.mk v.sender (v.refcnt + 1)

def VirtualDesktopChangeListener.release (v : VirtualDesktopChangeListener) :
    VirtualDesktopChangeListener :=
  VirtualDesktopChangeListener.mk v.sender (v.refcnt - 1)

/-- VirtualDesktopChangeListener::create (src lines 106-112): allocate, then
add_ref once.  Also returns the reference-count operations performed. -/
def VirtualDesktopChangeListener.create (s : Sender) :
    VirtualDesktopChangeListener × List SinkOp :=
  ((VirtualDesktopChangeListener.allocate s).add_ref, [SinkOp.addRef])

/-- Drop impl for VirtualDesktopChangeListener (src lines 115-123): dropping
the owning Box calls release once, giving back the hold create established. -/
def VirtualDesktopChangeListener.dropImpl (v : VirtualDesktopChangeListener) :
    VirtualDesktopChangeListener × List SinkOp :=
  (v.release, [SinkOp.release])

/-- Modelled from the spec: the OS notification service object (external
interface, not under src/) whose register operation returns a status and
writes a cookie out-parameter, and whose unregister operation takes a
cookie. -/
structure NotificationService where
  register_result : HRESULT
  register_cookie : Nat
deriving DecidableEq

/-- Registration handle (src lines 24-37): cookie used for unregistration,
the owned Sink, the receive end, and the retained service reference.  Fields
in declaration order, as dropped by Rust. -/
structure RegisteredListener where
  cookie : Nat
  listener : VirtualDesktopChangeListener
  receiver : Receiver
  service : NotificationService
deriving DecidableEq

/-- Outcome of RegisteredListener::register: the returned result, the final
state of the Sink, and the reference-count operations performed on it. -/
structure RegisterOutcome where
  result : Except HRESULT RegisteredListener
  sink : VirtualDesktopChangeListener
  sinkOps : List SinkOp

/-- RegisteredListener::register (src lines 42-76): create the Sink, call the
service's register operation; if the returned status is a failure, return it
as the error — the local Sink Box is dropped on this path, running its Drop
impl; on success, package cookie, Sink, receiver and service into the
handle. -/
def RegisteredListener.register (sender : Sender) (receiver : Receiver)
    (service : NotificationService) : RegisterOutcome :=
  let c := VirtualDesktopChangeListener.create sender
  if service.register_result.failed then
    let d := c.1.dropImpl
    RegisterOutcome.mk (Except.error service.register_result) d.1 (c.2 ++ d.2)
  else
    RegisterOutcome.mk
      (Except.ok (RegisteredListener.mk service.register_cookie c.1 receiver service))
      c.1 c.2

/-- RegisteredListener::get_receiver (src lines 78-80): clone the stored
receive end. -/
def RegisteredListener.get_receiver (l : RegisteredListener) : Receiver :=
  l.receiver.clone

/-- Actions observable while a RegisteredListener value is destroyed. -/
inductive TeardownAction
  | unregister (cookie : Nat)
  | releaseSink
  | dropReceiver
  | releaseService
deriving DecidableEq

def TeardownAction.isUnregister : TeardownAction → Bool
  | TeardownAction.unregister _ => true
  | _ => false

/-- Drop impl for RegisteredListener (src lines 83-91): its body performs
exactly one call, service.unregister(cookie). -/
def RegisteredListener.dropBody (l : RegisteredListener) : List TeardownAction :=
  [TeardownAction.unregister l.cookie]

/-- Field drops after the Drop impl body, in declaration order per Rust
semantics: cookie is a plain integer (no action), then the listener Box is
dropped (releasing the Sink and with it the channel send end), then the
receiver, then the retained service reference. -/
def RegisteredListener.dropFields (_l : RegisteredListener) : List TeardownAction :=
  [TeardownAction.releaseSink, TeardownAction.dropReceiver, TeardownAction.releaseService]

/-- Full destruction sequence of a RegisteredListener: the Drop impl body
runs first, then the fields are dropped in declaration order. -/
def RegisteredListener.destroy (l : RegisteredListener) : List TeardownAction :=
  l.dropBody ++ l.dropFields

/-- External collaborators used by the Sink callbacks (spec section 6):
identifier-to-index resolution and desktop enumeration. -/
structure Env where
  get_index_by_desktop : DesktopID → Except HRESULT Nat
  get_desktops : Except HRESULT (List DesktopID)

/-- One invocation of a Sink callback, carrying the values the COM-object
accessors report for it (an Option is none when the accessor does not write
its out-parameter). -/
inductive SinkCall
  | created (desktop_id : Option DesktopID)
  | destroyBegin (destroyed_id fallback_id : Option DesktopID)
  | destroyFailed (destroyed_id fallback_id : Option DesktopID)
  | destroyed (destroyed_id fallback_id : Option DesktopID)
  | viewChanged (thumbnail_window : Option HWND)
  | currentChanged (old_id new_id : Option DesktopID)

/-- Dispatch one callback invocation to its implementation. -/
def dispatch (env : Env) : SinkCall → Channel → CallbackResult
  | SinkCall.created gid, ch => virtual_desktop_created env.get_index_by_desktop gid ch
  | SinkCall.destroyBegin d f, ch => virtual_desktop_destroy_begin d f ch
  | SinkCall.destroyFailed d f, ch => virtual_desktop_destroy_failed d f ch
  | SinkCall.destroyed d f, ch => virtual_desktop_destroyed env.get_index_by_desktop d f ch
  | SinkCall.viewChanged w, ch => view_virtual_desktop_changed w ch
  | SinkCall.currentChanged og ng, ch => current_virtual_desktop_changed env.get_desktops og ng ch

/-- Run a sequence of callback invocations over the channel, in order. -/
def processCalls (env : Env) : List SinkCall → Channel → Channel
  | [], ch => ch
  | c :: cs, ch => processCalls env cs (dispatch env c ch).chan

/-- The event a given callback invocation attempts to send, if any. -/
def expectedEvent (env : Env) : SinkCall → Option VirtualDesktopEvent
  | SinkCall.created gid =>
      match env.get_index_by_desktop (gid.getD 0) with
      | Except.ok index => some (VirtualDesktopEvent.DesktopCreated index)
      | Except.error _ => none
  | SinkCall.destroyBegin _ _ => none
  | SinkCall.destroyFailed _ _ => none
  | SinkCall.destroyed gid _ =>
      match env.get_index_by_desktop (gid.getD 0) with
      | Except.ok index => some (VirtualDesktopEvent.DesktopDestroyed index)
      | Except.error _ => none
  | SinkCall.viewChanged w => some (VirtualDesktopEvent.WindowChanged (w.getD 0))
  | SinkCall.currentChanged og ng =>
      match env.get_desktops with
      | Except.ok desktops =>
          let r := cdcLoop (og.getD 0) (ng.getD 0) desktops 0 USIZE_MAX USIZE_MAX
          if r.1 ≠ USIZE_MAX ∧ r.2 ≠ USIZE_MAX then
            some (VirtualDesktopEvent.DesktopChanged r.1 r.2)
          else none
      | Except.error _ => none

/-- C3: for every desktop-created (resp. destroyed) callback, if
get_index_by_desktop resolves the reported identifier to index i, exactly one
send of DesktopCreated(i) (resp. DesktopDestroyed(i)) is attempted; if the
lookup fails, zero events are attempted; in both cases the callback returns
success. -/
theorem c3_created_destroyed_events
    (lookup : DesktopID → Except HRESULT Nat) (gid fb : Option DesktopID) (ch : Channel) :
    ((virtual_desktop_created lookup gid ch).hr = HRESULT.ok ∧
      (virtual_desktop_destroyed lookup gid fb ch).hr = HRESULT.ok) ∧
    (∀ i, lookup (gid.getD 0) = Except.ok i →
      (virtual_desktop_created lookup gid ch).attempts
          = [VirtualDesktopEvent.DesktopCreated i] ∧
      (virtual_desktop_destroyed lookup gid fb ch).attempts
          = [VirtualDesktopEvent.DesktopDestroyed i]) ∧
    (∀ e, lookup (gid.getD 0) = Except.error e →
      (virtual_desktop_created lookup gid ch).attempts = [] ∧
      (virtual_desktop_destroyed lookup gid fb ch).attempts = []) := by
  cases hl : lookup (gid.getD 0) <;>
    simp [virtual_desktop_created, virtual_desktop_destroyed, hl]

/-- Witness for C3 at a concrete resolving lookup. -/
theorem c3_created_destroyed_events_witness :
    (virtual_desktop_created (fun _ => Except.ok 2) (some 5) (Channel.mk none [] true)).attempts
        = [VirtualDesktopEvent.DesktopCreated 2] ∧
    (virtual_desktop_destroyed (fun _ => Except.ok 2) (some 5) none
        (Channel.mk none [] true)).attempts
        = [VirtualDesktopEvent.DesktopDestroyed 2] :=
  (c3_created_destroyed_events (fun _ => Except.ok 2) (some 5) none
      (Channel.mk none [] true)).2.1 2 rfl

/-- C6: every send in every callback is a non-blocking try_send whose failure
is discarded; invoking any callback on a channel whose receive end is gone
leaves the channel unchanged and still returns success to the OS. -/
theorem c6_closed_channel_safe (env : Env) (c : SinkCall) (ch : Channel)
    (h : ch.connected = false) :
    (dispatch env c ch).chan = ch ∧ (dispatch env c ch).hr = HRESULT.ok := by
  cases c with
  | created gid =>
      cases hl : env.get_index_by_desktop (gid.getD 0) <;>
        simp [dispatch, virtual_desktop_created, Channel.try_send, hl, h]
  | destroyBegin d f => simp [dispatch, virtual_desktop_destroy_begin]
  | destroyFailed d f => simp [dispatch, virtual_desktop_destroy_failed]
  | destroyed d f =>
      cases hl : env.get_index_by_desktop (d.getD 0) <;>
        simp [dispatch, virtual_desktop_destroyed, Channel.try_send, hl, h]
  | viewChanged w => simp [dispatch, view_virtual_desktop_changed, Channel.try_send, h]
  | currentChanged og ng =>
      cases hg : env.get_desktops with
      | error e => simp [dispatch, current_virtual_desktop_changed, hg]
      | ok ds =>
          simp only [dispatch, current_virtual_desktop_changed, hg]
          split <;> simp [Channel.try_send, h]

/-- Witness for C6: a callback invoked after the receive end is dropped. -/
theorem c6_closed_channel_safe_witness :
    (dispatch (Env.mk (fun _ => Except.ok 0) (Except.ok []))
        (SinkCall.viewChanged (some 5)) (Channel.mk none [] false)).chan
      = Channel.mk none [] false ∧
    (dispatch (Env.mk (fun _ => Except.ok 0) (Except.ok []))
        (SinkCall.viewChanged (some 5)) (Channel.mk none [] false)).hr = HRESULT.ok :=
  c6_closed_channel_safe (Env.mk (fun _ => Except.ok 0) (Except.ok []))
    (SinkCall.viewChanged (some 5)) (Channel.mk none [] false) rfl

/-- C7: every one of the six notification callbacks returns success for every
input; destroy_begin and destroy_failed perform no action and return
success. -/
theorem c7_all_callbacks_return_ok (env : Env) (c : SinkCall) (ch : Channel)
    (d f : Option DesktopID) :
    (dispatch env c ch).hr = HRESULT.ok ∧
    dispatch env (SinkCall.destroyBegin d f) ch = CallbackResult.mk ch [] HRESULT.ok ∧
    dispatch env (SinkCall.destroyFailed d f) ch = CallbackResult.mk ch [] HRESULT.ok := by
  refine ⟨?_, rfl, rfl⟩
  cases c with
  | created gid =>
      cases hl : env.get_index_by_desktop (gid.getD 0) <;>
        simp [dispatch, virtual_desktop_created, hl]
  | destroyBegin d2 f2 => rfl
  | destroyFailed d2 f2 => rfl
  | destroyed d2 f2 =>
      cases hl : env.get_index_by_desktop (d2.getD 0) <;>
        simp [dispatch, virtual_desktop_destroyed, hl]
  | viewChanged w => rfl
  | currentChanged og ng =>
      cases hg : env.get_desktops with
      | error e => simp [dispatch, current_virtual_desktop_changed, hg]
      | ok ds =>
          simp only [dispatch, current_virtual_desktop_changed, hg]
          split <;> rfl

/-- C9: immediately after the Sink is created (allocation followed by the
creator's single add_ref), its OS-visible reference count is exactly 1. -/
theorem c9_sink_initial_refcount (s : Sender) :
    (VirtualDesktopChangeListener.allocate s).refcnt = 0 ∧
    (VirtualDesktopChangeListener.create s).1.refcnt = 1 ∧
    (VirtualDesktopChangeListener.create s).2 = [SinkOp.addRef] :=
  ⟨rfl, rfl, rfl⟩

/-- C10: view_virtual_desktop_changed attempts exactly one WindowChanged send
unconditionally; when the accessor does not write the handle, the
zero-initialised (null) handle is sent. -/
theorem c10_window_changed_unconditional (w : Option HWND) (ch : Channel) :
    (view_virtual_desktop_changed w ch).attempts
        = [VirtualDesktopEvent.WindowChanged (w.getD 0)] ∧
    (view_virtual_desktop_changed w ch).hr = HRESULT.ok ∧
    (view_virtual_desktop_changed none ch).attempts = [VirtualDesktopEvent.WindowChanged 0] :=
  ⟨rfl, rfl, rfl⟩

/-- C4: a handle obtained from a successful register stores the cookie the
service returned and the service itself, and destroying it performs exactly
one unregister call, carrying exactly that cookie. -/
theorem c4_exactly_one_unregister (sender : Sender) (receiver : Receiver)
    (service : NotificationService) (l : RegisteredListener)
    (h : (RegisteredListener.register sender receiver service).result = Except.ok l) :
    l.service = service ∧ l.cookie = service.register_cookie ∧
    List.filter TeardownAction.isUnregister l.destroy
        = [TeardownAction.unregister service.register_cookie] := by
  by_cases hf : service.register_result.failed = true
  · simp [RegisteredListener.register, hf] at h
  · simp [RegisteredListener.register, hf] at h
    subst h
    refine ⟨rfl, rfl, ?_⟩
    simp [RegisteredListener.destroy, RegisteredListener.dropBody,
      RegisteredListener.dropFields, TeardownAction.isUnregister, List.filter]

/-- Witness for C4 at a concrete successful registration. -/
theorem c4_exactly_one_unregister_witness :
    (RegisteredListener.mk 7
        ((VirtualDesktopChangeListener.allocate (Sender.mk 0)).add_ref)
        (Receiver.mk 0) (NotificationService.mk (HRESULT.mk 0) 7)).service
      = NotificationService.mk (HRESULT.mk 0) 7 ∧
    (RegisteredListener.mk 7
        ((VirtualDesktopChangeListener.allocate (Sender.mk 0)).add_ref)
        (Receiver.mk 0) (NotificationService.mk (HRESULT.mk 0) 7)).cookie
      = (NotificationService.mk (HRESULT.mk 0) 7).register_cookie ∧
    List.filter TeardownAction.isUnregister
        (RegisteredListener.mk 7
          ((VirtualDesktopChangeListener.allocate (Sender.mk 0)).add_ref)
          (Receiver.mk 0) (NotificationService.mk (HRESULT.mk 0) 7)).destroy
      = [TeardownAction.unregister (NotificationService.mk (HRESULT.mk 0) 7).register_cookie] :=
  c4_exactly_one_unregister (Sender.mk 0) (Receiver.mk 0)
    (NotificationService.mk (HRESULT.mk 0) 7)
    (RegisteredListener.mk 7
      ((VirtualDesktopChangeListener.allocate (Sender.mk 0)).add_ref)
      (Receiver.mk 0) (NotificationService.mk (HRESULT.mk 0) 7)) rfl

/-- C5: when the service's register operation reports failure, register
returns that OS error, constructs no handle (so no cookie is stored and no
unregister can ever run for it), and the Sink's initial extra hold from
create is given back: the reference-count trace is addRef then release and
the final count is zero. -/
theorem c5_register_failure_path (sender : Sender) (receiver : Receiver)
    (service : NotificationService) (h : service.register_result.failed = true) :
    (RegisteredListener.register sender receiver service).result
        = Except.error service.register_result ∧
    (∀ l, (RegisteredListener.register sender receiver service).result ≠ Except.ok l) ∧
    (RegisteredListener.register sender receiver service).sinkOps
        = [SinkOp.addRef, SinkOp.release] ∧
    (RegisteredListener.register sender receiver service).sink.refcnt = 0 := by
  refine ⟨?_, ?_, ?_, ?_⟩ <;>
    simp [RegisteredListener.register, h, VirtualDesktopChangeListener.create,
      VirtualDesktopChangeListener.dropImpl, VirtualDesktopChangeListener.allocate,
      VirtualDesktopChangeListener.add_ref, VirtualDesktopChangeListener.release]

/-- Witness for C5 at a concrete failing registration status. -/
theorem c5_register_failure_path_witness :
    (RegisteredListener.register (Sender.mk 0) (Receiver.mk 0)
        (NotificationService.mk (HRESULT.mk (-1)) 0)).result
      = Except.error (NotificationService.mk (HRESULT.mk (-1)) 0).register_result ∧
    (∀ l, (RegisteredListener.register (Sender.mk 0) (Receiver.mk 0)
        (NotificationService.mk (HRESULT.mk (-1)) 0)).result ≠ Except.ok l) ∧
    (RegisteredListener.register (Sender.mk 0) (Receiver.mk 0)
        (NotificationService.mk (HRESULT.mk (-1)) 0)).sinkOps
      = [SinkOp.addRef, SinkOp.release] ∧
    (RegisteredListener.register (Sender.mk 0) (Receiver.mk 0)
        (NotificationService.mk (HRESULT.mk (-1)) 0)).sink.refcnt = 0 :=
  c5_register_failure_path (Sender.mk 0) (Receiver.mk 0)
    (NotificationService.mk (HRESULT.mk (-1)) 0) rfl

/-- Helper: the old accumulator of the desktop-changed loop leaves the
sentinel exactly when it already had, or the old identifier occurs in the
list (the first branch of the loop is unguarded). -/
theorem cdcLoop_fst_ne (old_id new_id : DesktopID) (ds : List DesktopID) :
    ∀ (i o n : Nat), i + ds.length ≤ USIZE_MAX →
      ((cdcLoop old_id new_id ds i o n).1 ≠ USIZE_MAX ↔
        (o ≠ USIZE_MAX ∨ old_id ∈ ds)) := by
  induction ds with
  | nil => intro i o n _; simp [cdcLoop]
  | cons d rest ih =>
      intro i o n h
      simp only [List.length_cons] at h
      have hlen : i + 1 + rest.length ≤ USIZE_MAX := by omega
      have hi : ¬ i = USIZE_MAX := by omega
      simp only [cdcLoop]
      by_cases hd : d = old_id
      · rw [if_pos hd, ih (i + 1) i n hlen]
        subst hd
        simp [hi]
      · by_cases hn : d = new_id
        · rw [if_neg hd, if_pos hn, ih (i + 1) o i hlen]
          have hd2 : ¬ old_id = d := fun hh => hd hh.symm
          simp [hd2]
        · rw [if_neg hd, if_neg hn, ih (i + 1) o n hlen]
          have hd2 : ¬ old_id = d := fun hh => hd hh.symm
          simp [hd2]

/-- Helper: the new accumulator of the desktop-changed loop leaves the
sentinel exactly when it already had, or the new identifier occurs in the
list at some element that is not equal to the old identifier — because of
the else-if, that means the new identifier occurs and differs from the old
one. -/
theorem cdcLoop_snd_ne (old_id new_id : DesktopID) (ds : List DesktopID) :
    ∀ (i o n : Nat), i + ds.length ≤ USIZE_MAX →
      ((cdcLoop old_id new_id ds i o n).2 ≠ USIZE_MAX ↔
        (n ≠ USIZE_MAX ∨ (new_id ∈ ds ∧ new_id ≠ old_id))) := by
  induction ds with
  | nil => intro i o n _; simp [cdcLoop]
  | cons d rest ih =>
      intro i o n h
      simp only [List.length_cons] at h
      have hlen : i + 1 + rest.length ≤ USIZE_MAX := by omega
      have hi : ¬ i = USIZE_MAX := by omega
      simp only [cdcLoop]
      by_cases hd : d = old_id
      · rw [if_pos hd, ih (i + 1) i n hlen]
        subst hd
        constructor
        · rintro (hh | ⟨hm, hno⟩)
          · exact Or.inl hh
          · exact Or.inr ⟨List.mem_cons_of_mem _ hm, hno⟩
        · rintro (hh | ⟨hm, hno⟩)
          · exact Or.inl hh
          · rcases List.mem_cons.mp hm with he | hm2
            · exact absurd he hno
            · exact Or.inr ⟨hm2, hno⟩
      · by_cases hn : d = new_id
        · rw [if_neg hd, if_pos hn, ih (i + 1) o i hlen]
          subst hn
          have hd2 : ¬ d = old_id := hd
          simp [hi, hd2]
        · rw [if_neg hd, if_neg hn, ih (i + 1) o n hlen]
          have hn2 : ¬ new_id = d := fun hh => hn hh.symm
          simp [hn2]

/-- C1 (amended): for a successful enumeration, a DesktopChanged send is
attempted if and only if the old identifier occurs in the enumerated list,
the new identifier occurs in it, and the two identifiers are distinct; when
they are equal the else-if in the loop prevents the new index from ever
being set, so zero events are emitted even though both identifiers resolve.
If the enumeration fails, zero events are emitted. -/
theorem c1_desktop_changed_iff (ds : List DesktopID) (og ng : Option DesktopID)
    (ch : Channel) (hlen : ds.length ≤ USIZE_MAX) :
    ((current_virtual_desktop_changed (Except.ok ds) og ng ch).attempts ≠ [] ↔
      (og.getD 0 ∈ ds ∧ ng.getD 0 ∈ ds ∧ og.getD 0 ≠ ng.getD 0)) ∧
    (∀ e, (current_virtual_desktop_changed (Except.error e) og ng ch).attempts = []) := by
  refine ⟨?_, fun e => rfl⟩
  have h0 : 0 + ds.length ≤ USIZE_MAX := by omega
  have h1 := cdcLoop_fst_ne (og.getD 0) (ng.getD 0) ds 0 USIZE_MAX USIZE_MAX h0
  have h2 := cdcLoop_snd_ne (og.getD 0) (ng.getD 0) ds 0 USIZE_MAX USIZE_MAX h0
  simp only [current_virtual_desktop_changed]
  split
  next hc =>
    constructor
    · intro _
      have hm1 := (h1.mp hc.1).resolve_left (fun hh => hh rfl)
      have hm2 := (h2.mp hc.2).resolve_left (fun hh => hh rfl)
      exact ⟨hm1, hm2.1, fun hh => hm2.2 hh.symm⟩
    · intro _
      simp
  next hc =>
    constructor
    · intro hfalse
      exact absurd rfl hfalse
    · rintro ⟨ho, hn2, hne⟩
      exact absurd ⟨h1.mpr (Or.inr ho), h2.mpr (Or.inr ⟨hn2, fun hh => hne hh.symm⟩)⟩ hc

/-- Witness for the amended C1 at a concrete input where both identifiers
resolve and differ. -/
theorem c1_desktop_changed_iff_witness :
    (current_virtual_desktop_changed (Except.ok [3, 4]) (some 3) (some 4)
        (Channel.mk none [] true)).attempts ≠ [] :=
  ((c1_desktop_changed_iff [3, 4] (some 3) (some 4) (Channel.mk none [] true)
      (by decide)).1).mpr (by decide)

/-- Counterexample to C1 as stated: with the enumerated list containing the
single desktop 0 and both the old and the new identifier equal to 0, both
identifiers resolve to a position in the list, yet no event is attempted and
the channel queue stays empty. -/
theorem c1_equal_ids_counterexample :
    (0 : DesktopID) ∈ ([0] : List DesktopID) ∧
    (current_virtual_desktop_changed (Except.ok [0]) (some 0) (some 0)
        (Channel.mk none [] true)).attempts = [] ∧
    (current_virtual_desktop_changed (Except.ok [0]) (some 0) (some 0)
        (Channel.mk none [] true)).chan.queue = [] := by
  refine ⟨by decide, by decide, by decide⟩

/-- Helper: one dispatched callback on a connected unbounded channel appends
exactly the event expectedEvent describes, and preserves connectedness and
unboundedness. -/
theorem dispatch_delivers (env : Env) (c : SinkCall) (ch : Channel)
    (h1 : ch.connected = true) (h2 : ch.cap = none) :
    (dispatch env c ch).chan.queue = ch.queue ++ (expectedEvent env c).toList ∧
    (dispatch env c ch).chan.connected = true ∧
    (dispatch env c ch).chan.cap = none := by
  cases c with
  | created gid =>
      cases hl : env.get_index_by_desktop (gid.getD 0) <;>
        simp [dispatch, virtual_desktop_created, expectedEvent, Channel.try_send, hl, h1, h2]
  | destroyBegin d f =>
      simp [dispatch, virtual_desktop_destroy_begin, expectedEvent, h1, h2]
  | destroyFailed d f =>
      simp [dispatch, virtual_desktop_destroy_failed, expectedEvent, h1, h2]
  | destroyed d f =>
      cases hl : env.get_index_by_desktop (d.getD 0) <;>
        simp [dispatch, virtual_desktop_destroyed, expectedEvent, Channel.try_send, hl, h1, h2]
  | viewChanged w =>
      simp [dispatch, view_virtual_desktop_changed, expectedEvent, Channel.try_send, h1, h2]
  | currentChanged og ng =>
      cases hg : env.get_desktops with
      | error e =>
          simp [dispatch, current_virtual_desktop_changed, expectedEvent, hg, h1, h2]
      | ok ds =>
          simp only [dispatch, current_virtual_desktop_changed, expectedEvent, hg]
          by_cases hc : (cdcLoop (og.getD 0) (ng.getD 0) ds 0 USIZE_MAX USIZE_MAX).1
                ≠ USIZE_MAX ∧
              (cdcLoop (og.getD 0) (ng.getD 0) ds 0 USIZE_MAX USIZE_MAX).2 ≠ USIZE_MAX
          · simp [hc, Channel.try_send, h1, h2]
          · simp [hc, h1, h2]

/-- Helper: running a whole sequence of callbacks on a connected unbounded
channel appends, per callback, exactly the event expectedEvent describes, in
callback order. -/
theorem processCalls_queue_eq (env : Env) (calls : List SinkCall) :
    ∀ ch : Channel, ch.connected = true → ch.cap = none →
      (processCalls env calls ch).queue
        = ch.queue ++ List.filterMap (expectedEvent env) calls := by
  induction calls with
  | nil => intro ch _ _; simp [processCalls]
  | cons c cs ih =>
      intro ch hc hn
      have hd := dispatch_delivers env c ch hc hn
      simp only [processCalls]
      rw [ih _ hd.2.1 hd.2.2, hd.1]
      cases he : expectedEvent env c <;> simp [he]

/-- C2: every receive end obtained from get_receiver is a clone of the one
stored receiver, hence a handle onto the same underlying channel, and for
any callback sequence over a connected unbounded channel exactly one event
per resolving callback is appended to that shared stream, in callback
order. -/
theorem c2_receiver_clones_one_stream (l : RegisteredListener) (env : Env)
    (calls : List SinkCall) (ch : Channel)
    (h1 : ch.connected = true) (h2 : ch.cap = none) :
    RegisteredListener.get_receiver l = l.receiver ∧
    (RegisteredListener.get_receiver l).chanId = l.receiver.chanId ∧
    (processCalls env calls ch).queue
        = ch.queue ++ List.filterMap (expectedEvent env) calls :=
  ⟨rfl, rfl, processCalls_queue_eq env calls ch h1 h2⟩

/-- Witness for C2 at a concrete two-callback trace. -/
theorem c2_receiver_clones_one_stream_witness :
    (processCalls (Env.mk (fun _ => Except.ok 2) (Except.ok []))
        [SinkCall.created (some 9), SinkCall.destroyed (some 9) none]
        (Channel.mk none [] true)).queue
      = [] ++ List.filterMap (expectedEvent (Env.mk (fun _ => Except.ok 2) (Except.ok [])))
          [SinkCall.created (some 9), SinkCall.destroyed (some 9) none] :=
  (c2_receiver_clones_one_stream
      (RegisteredListener.mk 7
        ((VirtualDesktopChangeListener.allocate (Sender.mk 0)).add_ref)
        (Receiver.mk 0) (NotificationService.mk (HRESULT.mk 0) 7))
      (Env.mk (fun _ => Except.ok 2) (Except.ok []))
      [SinkCall.created (some 9), SinkCall.destroyed (some 9) none]
      (Channel.mk none [] true) rfl rfl).2.2

/-- C8: during teardown the unregister call with the stored cookie is the
first action, before the Sink (and with it the channel send end), the
receive end, and the retained service reference are released. -/
theorem c8_unregister_before_releases (l : RegisteredListener) :
    List.head? l.destroy = some (TeardownAction.unregister l.cookie) ∧
    List.tail l.destroy
        = [TeardownAction.releaseSink, TeardownAction.dropReceiver,
            TeardownAction.releaseService] :=
  ⟨rfl, rfl⟩

end ChangeListener
